import Mathlib

/-!
Shallow embedding of the XTConnect.ControllersLib.Py PCMI controller library
(protocol codecs, record parsers, hex cursor, client state machine), together
with proofs about the properties its specification states.

Conventions for the Python-to-Lean embedding:
- Python byte strings and text strings are lists of natural-number character
  codes (each byte below 256 where the source guarantees it);
- Python int is Lean Int; naturals are used where the source value is a size
  or a byte and hence non-negative;
- a Python function that can raise returns Option or Except, with the error
  value standing for the raised exception;
- CPython int(s, 16) is modelled by pyIntHex including its sign, whitespace
  stripping, 0x prefix and underscore rules, because validate_checksum and the
  RLI decoders call it on attacker-controlled byte pairs;
- Python bitwise arithmetic on possibly negative ints is modelled with
  Int.lor and floor division, which match the twos-complement semantics.
-/

namespace XT

/-- ASCII codes of the hex-encoding lookup table in checksums.py,
which is the byte string 0123456789ABCDEF. -/
def hexChars : List Nat := [48, 49, 50, 51, 52, 53, 54, 55, 56, 57, 65, 66, 67, 68, 69, 70]

/-- Table lookup used by append_checksum and encode_checksum. -/
def hexCharU (n : Nat) : Nat := hexChars.getD n 0

/-- Hex digit value of an ASCII code, accepting both cases, as CPython does
inside int(s, 16). -/
def hexDigitVal (c : Nat) : Option Nat :=
  if 48 ≤ c ∧ c ≤ 57 then some (c - 48)
  else if 65 ≤ c ∧ c ≤ 70 then some (c - 55)
  else if 97 ≤ c ∧ c ≤ 102 then some (c - 87)
  else none

/-- ASCII whitespace that CPython strips around numeric literals. -/
def isPySpace (c : Nat) : Bool :=
  c = 32 || c = 9 || c = 10 || c = 13 || c = 11 || c = 12

/-- Strip leading and trailing ASCII whitespace, as int() does. -/
def stripPySpace (s : List Nat) : List Nat :=
  ((s.dropWhile isPySpace).reverse.dropWhile isPySpace).reverse

/-- Digit loop of CPython int(s, 16). An underscore (code 95) is allowed only
directly after a digit, or directly after the 0x prefix, and must be followed
by a digit; allowUS records whether an underscore may appear now. Returns
none when no digit was consumed or on a malformed underscore. -/
def hexDigitsLoop : List Nat → Option Nat → Bool → Option Nat
  | [], acc, _ => acc
  | c :: rest, acc, allowUS =>
    if c = 95 then
      match allowUS, rest with
      | true, d :: rest2 =>
        match hexDigitVal d with
        | some v => hexDigitsLoop rest2 (some ((acc.getD 0) * 16 + v)) true
        | none => none
      | _, _ => none
    else
      match hexDigitVal c with
      | some v => hexDigitsLoop rest (some ((acc.getD 0) * 16 + v)) true
      | none => none

/-- CPython int(s, 16) on a byte string: optional surrounding ASCII
whitespace, optional single sign, optional 0x or 0X prefix, then hex digits
with optional single underscores between digits. Returns none exactly where
Python raises ValueError. -/
def pyIntHex (s : List Nat) : Option Int :=
  let t := stripPySpace s
  let signAndRest : Int × List Nat :=
    match t with
    | 43 :: r => (1, r)
    | 45 :: r => (-1, r)
    | r => (1, r)
  let bodyAndUS : List Nat × Bool :=
    match signAndRest.2 with
    | 48 :: 120 :: r => (r, true)
    | 48 :: 88 :: r => (r, true)
    | r => (r, false)
  match hexDigitsLoop bodyAndUS.1 none bodyAndUS.2 with
  | some v => some (signAndRest.1 * (v : Int))
  | none => none

/-- calculate_checksum of checksums.py: sum all bytes, keep the low 8 bits. -/
def calculate_checksum (data : List Nat) : Nat := data.sum &&& 0xFF

/-- validate_checksum of checksums.py: recompute the checksum over the data
portion frame[:checksum_offset] and compare it with the integer parsed from
the two ASCII characters at checksum_offset. A ValueError from int() yields
false. -/
def validate_checksum (frame : List Nat) (checksum_offset : Nat) : Bool :=
  if frame.length < checksum_offset + 2 then false
  else
    let data := frame.take checksum_offset
    let expected := calculate_checksum data
    let checksum_chars := (frame.drop checksum_offset).take 2
    match pyIntHex checksum_chars with
    | some received => (expected : Int) == received
    | none => false

/-- append_checksum of checksums.py: append the checksum as two uppercase
ASCII hex characters taken from the lookup table. -/
def append_checksum (data : List Nat) : List Nat :=
  data ++ [hexCharU (calculate_checksum data >>> 4), hexCharU (calculate_checksum data &&& 0x0F)]

/-- Fuel-driven worker for natHexDigits; the fuel only needs to exceed the
digit count, and natHexDigits passes the number itself. -/
def natHexDigitsAux : Nat → Nat → List Nat
  | 0, n => [hexCharU n]
  | fuel + 1, n =>
    if n < 16 then [hexCharU n]
    else natHexDigitsAux fuel (n / 16) ++ [hexCharU (n % 16)]

/-- Uppercase hex digit expansion of a natural number, most significant digit
first, one digit for zero, as produced by the Python format code X. -/
def natHexDigits (n : Nat) : List Nat := natHexDigitsAux n n

/-- Python format expression with format spec 02X: uppercase hex, zero padded
on the left to at least two characters. -/
def fmt02X (n : Nat) : List Nat :=
  List.replicate (2 - (natHexDigits n).length) 48 ++ natHexDigits n

/-- Maximum byte count for a 1-byte RLI (length_indicators.py). -/
def MAX_1BYTE_RLI_SIZE : Nat := 510

/-- Maximum byte count for a 2-byte RLI (length_indicators.py). -/
def MAX_2BYTE_RLI_SIZE : Nat := 131070

/-- decode_1byte_rli of length_indicators.py: exactly 2 hex characters parsed
with int(s, 16); the RLI counts words, so the byte count is the value times
two. ValueError is modelled as none. -/
def decode_1byte_rli (rli_chars : List Nat) : Option Int :=
  if rli_chars.length ≠ 2 then none
  else
    match pyIntHex rli_chars with
    | some word_count => some (word_count * 2)
    | none => none

/-- decode_2byte_rli of length_indicators.py: exactly 4 hex characters; the
first two characters are the LOW byte and the last two the HIGH byte
(little-endian), combined as (high shifted left by 8) bitwise-or low. Python
shifts and ors on possibly negative ints are Int multiplication by 256 and
Int.lor. -/
def decode_2byte_rli (rli_chars : List Nat) : Option Int :=
  if rli_chars.length ≠ 4 then none
  else
    match pyIntHex (rli_chars.take 2), pyIntHex ((rli_chars.drop 2).take 2) with
    | some low_byte, some high_byte => some (Int.lor (high_byte * 256) low_byte * 2)
    | _, _ => none

/-- encode_1byte_rli of length_indicators.py on a byte count (callers pass
sizes, hence a natural): must be even and at most 510; ValueError is none. -/
def encode_1byte_rli (byte_count : Nat) : Option (List Nat) :=
  if byte_count % 2 ≠ 0 then none
  else if byte_count > MAX_1BYTE_RLI_SIZE then none
  else some (fmt02X (byte_count / 2))

/-- encode_2byte_rli of length_indicators.py: the word count is emitted low
byte first (little-endian), each byte through the 02X format. -/
def encode_2byte_rli (byte_count : Nat) : Option (List Nat) :=
  if byte_count % 2 ≠ 0 then none
  else if byte_count > MAX_2BYTE_RLI_SIZE then none
  else some (fmt02X ((byte_count / 2) &&& 0xFF) ++ fmt02X (((byte_count / 2) >>> 8) &&& 0xFF))

/-- Temperature value object of models/records.py: a signed 16-bit raw value
in tenths of a degree Fahrenheit. Pydantic field validation restricts
raw_value to [-32768, 32767]. -/
structure Temperature where
  raw_value : Int
deriving DecidableEq, Repr

/-- Sentinel raw value meaning sensor fault / not available. -/
def Temperature.NAN_VALUE : Int := 0x7FFF

/-- Temperature.is_nan property. -/
def Temperature.is_nan (t : Temperature) : Bool := t.raw_value == Temperature.NAN_VALUE

/-- Temperature.fahrenheit property. The source divides the raw value by the
float 10.0; the division is modelled by exact rational arithmetic, which for
these magnitudes agrees with the one-decimal reading of the float result. -/
def Temperature.fahrenheit (t : Temperature) : Option ℚ :=
  if t.is_nan then none else some ((t.raw_value : ℚ) / 10)

/-- Temperature.celsius property: derived from fahrenheit by the affine map
(f - 32) * 5 / 9, none when fahrenheit is none. -/
def Temperature.celsius (t : Temperature) : Option ℚ :=
  match t.fahrenheit with
  | none => none
  | some f => some ((f - 32) * 5 / 9)

/-- The two endianness strategies of protocol/endianness.py, as a tag: swap
is the big-endian SwapStrategy singleton, nonSwap the little-endian
NonSwapStrategy singleton. -/
inductive EndianTag where
  | swap
  | nonSwap
deriving DecidableEq, Repr

/-- RECORD_FORMAT_THRESHOLD of protocol/endianness.py. -/
def RECORD_FORMAT_THRESHOLD : Nat := 20

/-- get_endian_strategy of protocol/endianness.py: SwapStrategy for record
formats below the threshold, NonSwapStrategy otherwise. -/
def get_endian_strategy (record_format : Nat) : EndianTag :=
  if record_format < RECORD_FORMAT_THRESHOLD then .swap else .nonSwap

/-- Python expression (format_byte >> 4) & 0x0F on an arbitrary int: the
arithmetic right shift is floor division by 16 and the mask keeps the value
modulo 16 of the twos-complement representation, which is a natural. -/
def highNibble (format_byte : Int) : Nat := ((format_byte.fdiv 16).emod 16).toNat

/-- Errors raised by the zone record parsers (exceptions.py ParseError). -/
inductive ZoneParseErr where
  | tooShort
  | badFormat
deriving DecidableEq, Repr

/-- Endianness selection stage of ZoneParameterParser.parse
(parsers/zone_parser.py): reject records shorter than 84 hex characters,
parse the format byte from hex characters 8 and 9 with int(s, 16), extract
the record format as the high nibble, and unless an override is supplied
choose the strategy with get_endian_strategy. Returns the record format and
the chosen strategy. -/
def zoneParameterSelect (hex_data : List Nat) (override : Option EndianTag) :
    Except ZoneParseErr (Nat × EndianTag) :=
  if hex_data.length < 42 * 2 then .error .tooShort
  else
    match pyIntHex ((hex_data.drop 8).take 2) with
    | none => .error .badFormat
    | some format_byte =>
      let record_format := highNibble format_byte
      match override with
      | some s => .ok (record_format, s)
      | none => .ok (record_format, get_endian_strategy record_format)

/-- Endianness selection stage of ZoneVariableParser.parse
(parsers/zone_parser.py): identical to the parameter parser except that the
minimum record size is 24 bytes, hence 48 hex characters. -/
def zoneVariableSelect (hex_data : List Nat) (override : Option EndianTag) :
    Except ZoneParseErr (Nat × EndianTag) :=
  if hex_data.length < 24 * 2 then .error .tooShort
  else
    match pyIntHex ((hex_data.drop 8).take 2) with
    | none => .error .badFormat
    | some format_byte =>
      let record_format := highNibble format_byte
      match override with
      | some s => .ok (record_format, s)
      | none => .ok (record_format, get_endian_strategy record_format)

/-- Python str.upper restricted to ASCII, as applied by the HexStringReader
constructor to normalize its hex data. -/
def pyUpper (c : Nat) : Nat := if 97 ≤ c ∧ c ≤ 122 then c - 32 else c

/-- State of a HexStringReader (parsers/hex_reader.py): the normalized hex
data and the cursor position in hex characters. The position is a Python
int, so it can go negative; the stored length field of the source always
equals the data length since the data is never mutated. -/
structure HexStringReader where
  data : List Nat
  pos : Int
deriving DecidableEq, Repr

/-- The length property, in hex characters. -/
def HexStringReader.length (r : HexStringReader) : Nat := r.data.length

/-- HexStringReader constructor: raises ValueError on odd-length data,
normalizes to uppercase and starts the cursor at 0. -/
def HexStringReader.init (data : List Nat) : Option HexStringReader :=
  if data.length % 2 ≠ 0 then none
  else some ⟨data.map pyUpper, 0⟩

/-- The public cursor-moving operations of HexStringReader named in the
specification invariant, with their arguments. The count and position
arguments are Python ints and may be negative. -/
inductive ReaderOp where
  | read_byte
  | read_bytes (count : Int)
  | read_uint16
  | read_int16
  | read_uint32
  | read_int32
  | skip (char_count : Int)
  | skip_bytes (byte_count : Int)
  | seek (char_position : Int)
  | reset
  | slice (byte_count : Int)
  | create_subreader (byte_count : Int)
  | read_remaining
deriving DecidableEq, Repr

/-- Position effect of one public HexStringReader operation. _check_bounds
raises ParseError only when position + char_count exceeds the length, so a
negative count passes the check and moves the cursor backwards, possibly
below zero; a failed check leaves the position unchanged. read_byte and
read_bytes advance before decoding the hex window, so an invalid-hex
ParseError still leaves the advanced position. The multi-byte reads
delegate to read_bytes with 2 or 4 bytes; slice and create_subreader
advance like read_bytes; read_remaining reads remaining_bytes, the floor
quotient of remaining by 2, when any character remains; seek alone
explicitly rejects negative targets as well as targets past the length. -/
def HexStringReader.step (r : HexStringReader) : ReaderOp → HexStringReader
  | .read_byte => if r.pos + 2 ≤ (r.length : Int) then { r with pos := r.pos + 2 } else r
  | .read_bytes count =>
    if r.pos + count * 2 ≤ (r.length : Int) then { r with pos := r.pos + count * 2 } else r
  | .read_uint16 => if r.pos + 4 ≤ (r.length : Int) then { r with pos := r.pos + 4 } else r
  | .read_int16 => if r.pos + 4 ≤ (r.length : Int) then { r with pos := r.pos + 4 } else r
  | .read_uint32 => if r.pos + 8 ≤ (r.length : Int) then { r with pos := r.pos + 8 } else r
  | .read_int32 => if r.pos + 8 ≤ (r.length : Int) then { r with pos := r.pos + 8 } else r
  | .skip char_count =>
    if r.pos + char_count ≤ (r.length : Int) then { r with pos := r.pos + char_count } else r
  | .skip_bytes byte_count =>
    if r.pos + byte_count * 2 ≤ (r.length : Int) then
      { r with pos := r.pos + byte_count * 2 }
    else r
  | .seek char_position =>
    if char_position < 0 ∨ char_position > (r.length : Int) then r
    else { r with pos := char_position }
  | .reset => { r with pos := 0 }
  | .slice byte_count =>
    if r.pos + byte_count * 2 ≤ (r.length : Int) then
      { r with pos := r.pos + byte_count * 2 }
    else r
  | .create_subreader byte_count =>
    if r.pos + byte_count * 2 ≤ (r.length : Int) then
      { r with pos := r.pos + byte_count * 2 }
    else r
  | .read_remaining =>
    if (r.length : Int) - r.pos = 0 then r
    else if r.pos + ((r.length : Int) - r.pos).fdiv 2 * 2 ≤ (r.length : Int) then
      { r with pos := r.pos + ((r.length : Int) - r.pos).fdiv 2 * 2 }
    else r

/-- Run a sequence of public operations from a reader state. -/
def HexStringReader.runOps (r : HexStringReader) (ops : List ReaderOp) : HexStringReader :=
  ops.foldl HexStringReader.step r

/-- Frame delimiter constants of protocol/constants.py. -/
def STX : Nat := 0x20

/-- End-of-frame delimiter (carriage return). -/
def ETX : Nat := 0x0D

/-- CommandCode.PCMI_SERIAL_NUMBER. -/
def PCMI_SERIAL_NUMBER : Nat := 0x85

/-- CommandCode.PCMI_SN_ACK. -/
def PCMI_SN_ACK : Nat := 0x86

/-- CommandCode.PCMI_OK_SEND_NEXT. -/
def PCMI_OK_SEND_NEXT : Nat := 0x99

/-- CommandCode.PCMI_END_OF_RECORD. -/
def PCMI_END_OF_RECORD : Nat := 0x9B

/-- CommandCode.PCMI_ER_NO_ZONE. -/
def PCMI_ER_NO_ZONE : Nat := 0xC8

/-- The ERROR_CODES frozenset of protocol/constants.py. -/
def ERROR_CODES : List Nat :=
  [0xC1, 0xC2, 0xC3, 0xC4, 0xC8, 0xCA, 0xCB, 0xCC, 0xCD, 0xCE, 0xD9, 0xDA, 0xDB]

/-- ControllerClient._build_frame: STX, then command and data with the
checksum appended, then ETX. -/
def build_frame (command : Nat) (data : List Nat) : List Nat :=
  STX :: append_checksum (command :: data) ++ [ETX]

/-- ControllerClient._build_simple_frame: a frame with no data bytes. -/
def build_simple_frame (command : Nat) : List Nat := build_frame command []

/-- The acknowledgment frame the download loop writes after every yielded
record. -/
def okSendNextFrame : List Nat := build_simple_frame PCMI_OK_SEND_NEXT

/-- Client connection states (client.py ClientState). -/
inductive ClientState where
  | DISCONNECTED
  | CONNECTING
  | CONNECTED
  | DOWNLOADING
  | DISCONNECTING
deriving DecidableEq, Repr

/-- Result kinds of FrameReader.parse (protocol/frame_reader.py). -/
inductive FrameParseResult where
  | SUCCESS
  | EMPTY_BUFFER
  | INCOMPLETE_FRAME
  | INVALID_FORMAT
  | INVALID_CHECKSUM
  | UNKNOWN_COMMAND
deriving DecidableEq, Repr

/-- The fields of a ParsedFrame that the client download loop inspects. -/
structure ParsedFrame where
  command_byte : Nat
  payload_hex : List Nat
deriving DecidableEq, Repr

/-- One read_until plus FrameReader.parse interaction of the download loop,
supplied as an oracle: the transport read either raises TimeoutError or
delivers a buffer whose parse gives the recorded result and frame. -/
inductive DLEvent where
  | timeout
  | frame (result : FrameParseResult) (parsed : ParsedFrame)
deriving DecidableEq, Repr

/-- How a run of _download_records ends. starved means the scripted events
ran out while the loop was still waiting on the transport, so the generator
is still in flight. -/
inductive DROutcome where
  | endOfRecord
  | noZone
  | controllerError (code : Nat)
  | protocolFail
  | timeoutFail
  | starved
deriving DecidableEq, Repr

/-- Observable behaviour of a run of _download_records: the frames yielded to
the consumer, the acknowledgment frames written, and how the loop ended. -/
structure DRResult where
  yielded : List ParsedFrame
  writes : List (List Nat)
  outcome : DROutcome
deriving DecidableEq, Repr

/-- ControllerClient._download_records as a trace function over the scripted
read-and-parse events, with the consumer resuming the generator after every
yield and all acknowledgment writes succeeding. Each iteration reads until
ETX and parses; a non-success parse raises ProtocolError; END_OF_RECORD ends
the loop; an error code ends the loop for ER_NO_ZONE and raises
ControllerError otherwise; any other frame is yielded and OK_SEND_NEXT is
written before the next read. -/
def downloadRecordsCore : List DLEvent → DRResult
  | [] => ⟨[], [], .starved⟩
  | .timeout :: _ => ⟨[], [], .timeoutFail⟩
  | .frame result parsed :: rest =>
    if result ≠ .SUCCESS then ⟨[], [], .protocolFail⟩
    else if parsed.command_byte = PCMI_END_OF_RECORD then ⟨[], [], .endOfRecord⟩
    else if parsed.command_byte ∈ ERROR_CODES then
      if parsed.command_byte = PCMI_ER_NO_ZONE then ⟨[], [], .noZone⟩
      else ⟨[], [], .controllerError parsed.command_byte⟩
    else
      let tail := downloadRecordsCore rest
      ⟨parsed :: tail.yielded, okSendNextFrame :: tail.writes, tail.outcome⟩

/-- Error kinds a download operation can raise (exceptions.py). -/
inductive OpErr where
  | connectionFail
  | transportFail
  | protocolFail
  | timeoutFail
  | controllerFail (code : Nat)
  | recordParseFail
deriving DecidableEq, Repr

/-- One scripted loop iteration for a composed download operation: the
read-and-parse event, and whether the acknowledgment write succeeds if the
iteration reaches it. -/
structure LoopStep where
  ev : DLEvent
  ackOk : Bool
deriving DecidableEq, Repr

/-- How a download operation ends: normally with the records delivered,
with an exception, or still in flight because the scripted events ran out
while the loop was awaiting the transport. -/
inductive OpOutcome (α : Type) where
  | finished (records : List α)
  | failed (e : OpErr)
  | inFlight
deriving DecidableEq, Repr

/-- True when the operation has ended, normally or with an exception. -/
def OpOutcome.ended {α : Type} : OpOutcome α → Bool
  | .inFlight => false
  | _ => true

/-- The loop of a download method composed with _download_records, with the
per-frame body abstracted as process: Except.error models the consumer
raising while handling the yielded frame (for example a record parse
failure), which closes the generator before the acknowledgment write; ok none
models a frame filtered out by the command check; ok (some record) a record
delivered to the caller. After the consumer resumes, the acknowledgment is
written and a write failure raises. -/
def runDownloadLoop {α : Type} (process : ParsedFrame → Except OpErr (Option α)) :
    List LoopStep → OpOutcome α
  | [] => .inFlight
  | step :: rest =>
    match step.ev with
    | .timeout => .failed .timeoutFail
    | .frame result parsed =>
      if result ≠ .SUCCESS then .failed .protocolFail
      else if parsed.command_byte = PCMI_END_OF_RECORD then .finished []
      else if parsed.command_byte ∈ ERROR_CODES then
        if parsed.command_byte = PCMI_ER_NO_ZONE then .finished []
        else .failed (.controllerFail parsed.command_byte)
      else
        match process parsed with
        | .error e => .failed e
        | .ok produced =>
          if step.ackOk = false then .failed .transportFail
          else
            match runDownloadLoop process rest with
            | .finished records =>
              .finished (match produced with | some record => record :: records | none => records)
            | other => other

/-- Common shape of the six multi-record download methods of
ControllerClient (download_zone_parameters, download_zone_variables,
download_history, download_alarms, download_device_parameters,
download_device_variables): _ensure_connected raises unless the state is
CONNECTED and leaves the state unchanged; the state becomes DOWNLOADING; the
request frame write and the whole loop run inside the try block, whose
finally clause restores CONNECTED whether the body returned or raised.
requestWriteOk scripts the transport write of the request; steps scripts the
loop. When the script starves the loop, the operation is still in flight and
the state is still DOWNLOADING. -/
def runDownloadOp {α : Type} (process : ParsedFrame → Except OpErr (Option α))
    (requestWriteOk : Bool) (steps : List LoopStep) (st : ClientState) :
    OpOutcome α × ClientState :=
  if st ≠ .CONNECTED then (.failed .connectionFail, st)
  else if requestWriteOk = false then (.failed .transportFail, .CONNECTED)
  else
    match runDownloadLoop process steps with
    | .inFlight => (.inFlight, .DOWNLOADING)
    | outcome => (outcome, .CONNECTED)

/-- Observable transport events of ControllerClient.connect: a frame write,
the 100 ms inter-retry sleep, and the discard_buffers call. -/
inductive ConnEv where
  | writeFrame (frame : List Nat)
  | sleepRetry
  | discardBuffers
deriving DecidableEq, Repr

/-- Scripted behaviour of one connect attempt: the transport write raises, or
_read_response raises TimeoutError, or _read_response returns a byte. -/
inductive ConnResp where
  | writeFail
  | readTimeout
  | response (b : Nat)
deriving DecidableEq, Repr

/-- How connect ends. -/
inductive ConnOutcome where
  | ok
  | connectionFail
  | validationFail
  | transportFail
  | timeoutFail
  | controllerFail (code : Nat)
  | protocolFail
deriving DecidableEq, Repr

/-- Observable behaviour of a connect call. -/
structure ConnectRes where
  events : List ConnEv
  outcome : ConnOutcome
  state : ClientState
deriving DecidableEq, Repr

/-- The connection frame built by connect: command 0x85 with the 02X
formatted serial length followed by the ASCII serial digits. -/
def serialNumberFrame (serial : List Nat) : List Nat :=
  build_frame PCMI_SERIAL_NUMBER (fmt02X serial.length ++ serial)

/-- SerialNumber pydantic validation: exactly 8 ASCII decimal digits. -/
def isValidSerial (serial : List Nat) : Bool :=
  serial.length == 8 && serial.all (fun c => 48 ≤ c && c ≤ 57)

/-- Retry loop of ControllerClient.connect, processing the attempts numbered
attempt, attempt + 1, ..., attempt + remaining. Every attempt after the
first starts by discarding the transport buffers, then writes the connection
frame. A write error hits the generic exception handler, which sets
DISCONNECTED and re-raises. SN_ACK sets CONNECTED; an error-set byte raises
ControllerError and any other response ProtocolError, both through the
generic handler. A TimeoutError sleeps 100 ms and retries while attempts
remain; the second equation is the final attempt, after which the loop falls
through to set DISCONNECTED and re-raise the timeout. -/
def connectLoop (serial : List Nat) (responses : Nat → ConnResp) :
    Nat → Nat → ConnectRes
  | attempt, 0 =>
    let evs := (if attempt = 0 then [] else [.discardBuffers]) ++
      [ConnEv.writeFrame (serialNumberFrame serial)]
    match responses attempt with
    | .writeFail => ⟨evs, .transportFail, .DISCONNECTED⟩
    | .response b =>
      if b = PCMI_SN_ACK then ⟨evs, .ok, .CONNECTED⟩
      else if b ∈ ERROR_CODES then ⟨evs, .controllerFail b, .DISCONNECTED⟩
      else ⟨evs, .protocolFail, .DISCONNECTED⟩
    | .readTimeout => ⟨evs, .timeoutFail, .DISCONNECTED⟩
  | attempt, remaining + 1 =>
    let evs := (if attempt = 0 then [] else [.discardBuffers]) ++
      [ConnEv.writeFrame (serialNumberFrame serial)]
    match responses attempt with
    | .writeFail => ⟨evs, .transportFail, .DISCONNECTED⟩
    | .response b =>
      if b = PCMI_SN_ACK then ⟨evs, .ok, .CONNECTED⟩
      else if b ∈ ERROR_CODES then ⟨evs, .controllerFail b, .DISCONNECTED⟩
      else ⟨evs, .protocolFail, .DISCONNECTED⟩
    | .readTimeout =>
      let tail := connectLoop serial responses (attempt + 1) remaining
      ⟨evs ++ ConnEv.sleepRetry :: tail.events, tail.outcome, tail.state⟩

/-- ControllerClient.connect: raises ConnectionError unless DISCONNECTED,
validates the serial number before entering CONNECTING (a validation error
leaves the state DISCONNECTED), then runs the retry loop over
max_retries + 1 attempts with the scripted transport responses. -/
def connect (serial : List Nat) (max_retries : Nat) (st : ClientState)
    (responses : Nat → ConnResp) : ConnectRes :=
  if st ≠ .DISCONNECTED then ⟨[], .connectionFail, st⟩
  else if isValidSerial serial = false then ⟨[], .validationFail, .DISCONNECTED⟩
  else connectLoop serial responses 0 max_retries

/-- Number of transport writes recorded in a connect event trace. -/
def writeCount (events : List ConnEv) : Nat :=
  (events.filter (fun e => match e with | .writeFrame _ => true | _ => false)).length

/-- Flip bit k of a byte. -/
def flipBit (c k : Nat) : Nat := c ^^^ (1 <<< k)

/-- Flip bit k of the byte at index i of a list. -/
def flipNth (l : List Nat) (i k : Nat) : List Nat := l.set i (flipBit (l.getD i 0) k)

/-- The two checksum characters append_checksum emits for a checksum value. -/
def checksumChars (c : Nat) : List Nat := [hexCharU (c >>> 4), hexCharU (c &&& 0x0F)]

/-- Boolean value of the comparison validate_checksum performs on a two
character candidate checksum field against the expected value c. -/
def checksumFieldMatches (c : Nat) (chars : List Nat) : Bool :=
  match pyIntHex chars with
  | some received => (c : Int) == received
  | none => false

/-- Characterization of the single-bit flips of the emitted checksum
characters that still validate: toggling the case bit (bit 5) of a letter
digit, or toggling bit 4 of a zero digit into a space where the parsed value
is unchanged, namely on the leading character when the high nibble is zero,
or on either character of the checksum 0x00. -/
def checksumFlipStillValid (c i k : Nat) : Bool :=
  (k == 5 && decide (10 ≤ (if i == 0 then c / 16 else c % 16))) ||
  (k == 4 && (if i == 0 then c / 16 == 0 else c == 0))

/-- Whether a HexStringReader operation keeps the cursor byte-aligned by
construction: skip with an odd character count and seek to an odd position
are the only public operations that can break alignment, since every other
operation moves the cursor by an even number of characters. -/
def ReaderOp.evenArgs : ReaderOp → Bool
  | .skip char_count => char_count % 2 == 0
  | .seek char_position => char_position % 2 == 0
  | _ => true

/-- Whether a HexStringReader operation is called with a non-negative count.
The overflow-only _check_bounds lets a negative count through, so skip,
skip_bytes, read_bytes, slice and create_subreader can move the cursor below
zero; seek rejects negative targets itself and needs no condition. -/
def ReaderOp.nonnegArgs : ReaderOp → Bool
  | .read_bytes count => 0 ≤ count
  | .skip char_count => 0 ≤ char_count
  | .skip_bytes byte_count => 0 ≤ byte_count
  | .slice byte_count => 0 ≤ byte_count
  | .create_subreader byte_count => 0 ≤ byte_count
  | _ => true

end XT

namespace XT

/-- An uppercase hex digit pair parses under int(s, 16) to its value. Proved
by checking all 256 digit pairs. -/
theorem pyIntHex_hexPair :
    ∀ hi : Nat, hi < 16 → ∀ lo : Nat, lo < 16 →
      pyIntHex [hexCharU hi, hexCharU lo] = some ((16 * hi + lo : Nat) : Int) := by decide

/-- The masking in calculate_checksum is reduction modulo 256. -/
theorem calculate_checksum_eq_mod (data : List Nat) :
    calculate_checksum data = data.sum % 256 := by
  have h := Nat.and_pow_two_sub_one_eq_mod data.sum 8
  norm_num at h
  simpa [calculate_checksum] using h

/-- A checksum value is below 256. -/
theorem calculate_checksum_lt (data : List Nat) : calculate_checksum data < 256 := by
  rw [calculate_checksum_eq_mod]
  omega

/-- The checksum characters are the canonical digit pair of the nibbles. -/
theorem checksumChars_eq (c : Nat) :
    checksumChars c = [hexCharU (c / 16), hexCharU (c % 16)] := by
  have h4 : c >>> 4 = c / 16 := by
    have := Nat.shiftRight_eq_div_pow c 4
    norm_num at this
    exact this
  have hm : c &&& 0x0F = c % 16 := by
    have := Nat.and_pow_two_sub_one_eq_mod c 4
    norm_num at this
    exact this
  simp [checksumChars, h4, hm]

/-- append_checksum is literally the data followed by the checksum digit
pair. -/
theorem append_checksum_eq (data : List Nat) :
    append_checksum data = data ++ checksumChars (calculate_checksum data) := rfl

/-- The emitted checksum characters parse back to the checksum value. -/
theorem pyIntHex_checksumChars (c : Nat) (hc : c < 256) :
    pyIntHex (checksumChars c) = some ((c : Nat) : Int) := by
  rw [checksumChars_eq]
  have h := pyIntHex_hexPair (c / 16) (by omega) (c % 16) (by omega)
  rw [h, show 16 * (c / 16) + c % 16 = c from by omega]

set_option maxRecDepth 4096 in
/-- The 02X format of a byte is the canonical digit pair of its nibbles.
Proved by checking all 256 bytes. -/
theorem fmt02X_small :
    ∀ b : Nat, b < 256 → fmt02X b = [hexCharU (b / 16), hexCharU (b % 16)] := by decide

/-- The 02X format of a byte parses back to the byte under int(s, 16). -/
theorem pyIntHex_fmt02X (b : Nat) (hb : b < 256) :
    pyIntHex (fmt02X b) = some ((b : Nat) : Int) := by
  rw [fmt02X_small b hb, pyIntHex_hexPair (b / 16) (by omega) (b % 16) (by omega),
    show 16 * (b / 16) + b % 16 = b from by omega]

/-- Int.lor agrees with Nat.lor on natural casts. -/
theorem int_lor_natCast (a b : Nat) : Int.lor (a : Int) (b : Int) = ((a ||| b : Nat) : Int) := rfl

set_option maxRecDepth 8192 in
/-- Exhaustive check over every checksum value and every single-bit flip of
its two emitted characters: the flipped field still validates exactly in the
cases characterized by checksumFlipStillValid. -/
theorem checksumFlip_core :
    ∀ c : Nat, c < 256 → ∀ i : Nat, i < 2 → ∀ k : Nat, k < 8 →
      checksumFieldMatches c (flipNth (checksumChars c) i k) = checksumFlipStillValid c i k := by
  decide

/-- validate_checksum on a frame that is a data part followed by exactly two
candidate checksum characters reduces to the field comparison against the
checksum of the data part. -/
theorem validate_checksum_append (data chars : List Nat) (hc : chars.length = 2) :
    validate_checksum (data ++ chars) data.length =
      checksumFieldMatches (calculate_checksum data) chars := by
  rw [validate_checksum, if_neg (by simp [hc])]
  simp only [List.take_left, List.drop_left]
  rw [List.take_of_length_le (by omega)]
  rcases h : pyIntHex chars with _ | v <;> simp [checksumFieldMatches, h]

/-- C5: the checksum round trip always validates; flipping any single bit of
the data part always breaks validation; flipping a single bit of the two
appended checksum characters breaks validation except in the exact cases
characterized by checksumFlipStillValid, namely the case-bit toggle of a
letter digit and the bit-4 toggle of a zero digit into a space the parser
strips without changing the value. -/
theorem C5_checksum_bitflip_behaviour :
    (∀ d : List Nat, validate_checksum (append_checksum d) d.length = true) ∧
    (∀ (l1 l2 : List Nat) (b k : Nat), k < 8 → b < 256 →
      validate_checksum
        ((l1 ++ flipBit b k :: l2) ++ checksumChars (calculate_checksum (l1 ++ b :: l2)))
        (l1 ++ b :: l2).length = false) ∧
    (∀ (d : List Nat) (i k : Nat), i < 2 → k < 8 →
      validate_checksum (d ++ flipNth (checksumChars (calculate_checksum d)) i k) d.length =
        checksumFlipStillValid (calculate_checksum d) i k) := by
  refine ⟨?_, ?_, ?_⟩
  · intro d
    rw [append_checksum_eq, validate_checksum_append d _ (by simp [checksumChars])]
    simp [checksumFieldMatches, pyIntHex_checksumChars _ (calculate_checksum_lt d)]
  · intro l1 l2 b k hk hb
    have hpow : 2 ^ k < 256 := by
      calc 2 ^ k < 2 ^ 8 := Nat.pow_lt_pow_right (by norm_num) hk
      _ = 256 := by norm_num
    have hshift : (1 : Nat) <<< k = 2 ^ k := by
      rw [Nat.shiftLeft_eq]
      ring
    have hx_lt : flipBit b k < 256 := by
      have h28 : (2 : Nat) ^ 8 = 256 := by norm_num
      have hl : b < 2 ^ 8 := by rw [h28]; exact hb
      have hr : 2 ^ k < 2 ^ 8 := by rw [h28]; exact hpow
      have h := Nat.xor_lt_two_pow hl hr
      rw [h28] at h
      simpa [flipBit, hshift] using h
    have hx_ne : flipBit b k ≠ b := by
      simp only [flipBit, hshift]
      intro heq
      have h3 := congrArg (fun y => b ^^^ y) heq
      simp only [← Nat.xor_assoc, Nat.xor_self, Nat.zero_xor] at h3
      exact absurd h3 (by positivity)
    have hlen_eq : (l1 ++ b :: l2).length = (l1 ++ flipBit b k :: l2).length := by simp
    rw [hlen_eq, validate_checksum_append _ _ (by simp [checksumChars]),
      checksumFieldMatches, pyIntHex_checksumChars _ (calculate_checksum_lt _)]
    rw [beq_eq_false_iff_ne]
    intro hcontra
    have hnat : calculate_checksum (l1 ++ flipBit b k :: l2) =
        calculate_checksum (l1 ++ b :: l2) := by exact_mod_cast hcontra
    rw [calculate_checksum_eq_mod, calculate_checksum_eq_mod] at hnat
    simp only [List.sum_append, List.sum_cons] at hnat
    omega
  · intro d i k hi hk
    rw [validate_checksum_append d _ (by simp [flipNth, checksumChars])]
    exact checksumFlip_core _ (calculate_checksum_lt d) i hi k hk

/-- C5 counterexample: for the one-byte data 0xAC the appended checksum is
the characters AC; toggling bit 5 of the first character turns A (code 65)
into a (code 97), a single-bit flip of the checksum field, and the frame
still validates because int(s, 16) accepts lowercase hex, contradicting the
claim that any single-bit flip falsifies validation. -/
theorem C5_checksum_bitflip_cex :
    append_checksum [172] = [172, 65, 67] ∧
    flipNth (checksumChars (calculate_checksum [172])) 0 5 = [97, 67] ∧
    validate_checksum ([172] ++ flipNth (checksumChars (calculate_checksum [172])) 0 5) 1 =
      true := by
  decide

/-- C5 witness: the three parts of the bit-flip theorem applied at concrete
inputs: the round trip on data [5], a bit-0 flip of the single data byte 7,
and a bit-0 flip of the first checksum character of data [5]. -/
theorem C5_checksum_bitflip_witness :
    validate_checksum (append_checksum [5]) 1 = true ∧
    validate_checksum
      (([] ++ flipBit 7 0 :: []) ++ checksumChars (calculate_checksum ([] ++ 7 :: [])))
      ([] ++ 7 :: ([] : List Nat)).length = false ∧
    validate_checksum ([5] ++ flipNth (checksumChars (calculate_checksum [5])) 0 0) 1 =
      checksumFlipStillValid (calculate_checksum [5]) 0 0 :=
  ⟨C5_checksum_bitflip_behaviour.1 [5],
   C5_checksum_bitflip_behaviour.2.1 [] [] 7 0 (by norm_num) (by norm_num),
   C5_checksum_bitflip_behaviour.2.2 [5] 0 0 (by norm_num) (by norm_num)⟩

/-- C9 counterexample: calculate_checksum on the scenario buffer
{0x82, 0x08, 0x30, 0x30, 0x30, 0x30, 0x39, 0x30, 0x30, 0x31} returns
0x14 = 20, not 0xAC = 172 as the claim states: the byte sum is 532 and
532 mod 256 = 20. -/
theorem C9_checksum_scenario_cex :
    calculate_checksum [0x82, 0x08, 0x30, 0x30, 0x30, 0x30, 0x39, 0x30, 0x30, 0x31] = 0x14 ∧
    calculate_checksum [0x82, 0x08, 0x30, 0x30, 0x30, 0x30, 0x39, 0x30, 0x30, 0x31] ≠ 0xAC := by
  decide

/-- C9 amended: calculate_checksum applied to the 10-byte buffer
{0x82, 0x08, 0x30, 0x30, 0x30, 0x30, 0x39, 0x30, 0x30, 0x31} returns 0x14,
and append_checksum on that buffer yields the buffer followed by the ASCII
characters 1 and 4. -/
theorem C9_checksum_scenario :
    calculate_checksum [0x82, 0x08, 0x30, 0x30, 0x30, 0x30, 0x39, 0x30, 0x30, 0x31] = 0x14 ∧
    append_checksum [0x82, 0x08, 0x30, 0x30, 0x30, 0x30, 0x39, 0x30, 0x30, 0x31] =
      [0x82, 0x08, 0x30, 0x30, 0x30, 0x30, 0x39, 0x30, 0x30, 0x31, 49, 52] := by
  decide

/-- C7: for the sentinel raw value 0x7FFF both conversions return no value;
for every other raw value in the validated range [-32768, 32767] the
Fahrenheit conversion is exactly raw divided by 10 and the Celsius
conversion is exactly (F - 32) times 5 / 9, in exact rational arithmetic
standing for the one-decimal reading of the float computation. -/
theorem C7_temperature_conversions :
    (Temperature.fahrenheit ⟨0x7FFF⟩ = none ∧ Temperature.celsius ⟨0x7FFF⟩ = none) ∧
    (∀ raw : Int, -32768 ≤ raw → raw ≤ 32767 → raw ≠ 0x7FFF →
      Temperature.fahrenheit ⟨raw⟩ = some ((raw : ℚ) / 10) ∧
      Temperature.celsius ⟨raw⟩ = some (((raw : ℚ) / 10 - 32) * 5 / 9)) := by
  constructor
  · constructor <;>
      simp [Temperature.fahrenheit, Temperature.celsius, Temperature.is_nan,
        Temperature.NAN_VALUE]
  · intro raw h1 h2 h3
    have hn : (Temperature.mk raw).is_nan = false := by
      simpa [Temperature.is_nan, Temperature.NAN_VALUE] using h3
    constructor <;>
      simp [Temperature.fahrenheit, Temperature.celsius, hn]

/-- C7 witness: the conversion theorem applied at the concrete raw value
725, which is 72.5 degrees Fahrenheit. -/
theorem C7_temperature_conversions_witness :
    Temperature.fahrenheit ⟨725⟩ = some ((725 : ℚ) / 10) ∧
    Temperature.celsius ⟨725⟩ = some ((((725 : Int) : ℚ) / 10 - 32) * 5 / 9) := by
  have h := C7_temperature_conversions.2 725 (by norm_num) (by norm_num) (by norm_num)
  exact ⟨by simpa using h.1, h.2⟩

/-- C10: whenever either zone parser selects an endianness without an
explicit override, the record format is the high nibble of byte 4 and hence
at most 15, below the threshold 20, so the selected strategy is always the
big-endian SwapStrategy and the little-endian branch is unreachable. -/
theorem C10_zone_endian_always_swap :
    (∀ (hex_data : List Nat) (rf : Nat) (tag : EndianTag),
      zoneParameterSelect hex_data none = .ok (rf, tag) → rf ≤ 15 ∧ tag = .swap) ∧
    (∀ (hex_data : List Nat) (rf : Nat) (tag : EndianTag),
      zoneVariableSelect hex_data none = .ok (rf, tag) → rf ≤ 15 ∧ tag = .swap) := by
  have hnib : ∀ fb : Int, highNibble fb ≤ 15 := by
    intro fb
    have h1 : 0 ≤ (fb.fdiv 16).emod 16 := Int.emod_nonneg _ (by norm_num)
    have h2 : (fb.fdiv 16).emod 16 < 16 := Int.emod_lt_of_pos _ (by norm_num)
    simp only [highNibble]
    omega
  have hswap : ∀ rf : Nat, rf ≤ 15 → get_endian_strategy rf = .swap := by
    intro rf h
    simp [get_endian_strategy, RECORD_FORMAT_THRESHOLD]
    omega
  constructor
  · intro hex_data rf tag h
    simp only [zoneParameterSelect] at h
    split at h
    · exact absurd h (by simp)
    · split at h
      · exact absurd h (by simp)
      · rename_i fb heq
        rw [Except.ok.injEq, Prod.mk.injEq] at h
        obtain ⟨hrf, htag⟩ := h
        subst hrf htag
        exact ⟨hnib fb, hswap _ (hnib fb)⟩
  · intro hex_data rf tag h
    simp only [zoneVariableSelect] at h
    split at h
    · exact absurd h (by simp)
    · split at h
      · exact absurd h (by simp)
      · rename_i fb heq
        rw [Except.ok.injEq, Prod.mk.injEq] at h
        obtain ⟨hrf, htag⟩ := h
        subst hrf htag
        exact ⟨hnib fb, hswap _ (hnib fb)⟩

/-- C6: decoding inverts encoding for both RLI widths on every word-aligned
size in range, the 2-byte RLI is combined little-endian from its low and
high bytes, and the three concrete values of the specification hold, with
the hex strings given as ASCII codes: FF is [70, 70], B800 is
[66, 56, 48, 48] and 0001 is [48, 48, 48, 49]. -/
theorem C6_rli_roundtrip :
    (∀ n : Nat, n ≤ 65535 →
      (encode_2byte_rli (n * 2)).bind decode_2byte_rli = some ((n * 2 : Nat) : Int)) ∧
    (∀ n : Nat, n ≤ 255 →
      (encode_1byte_rli (n * 2)).bind decode_1byte_rli = some ((n * 2 : Nat) : Int)) ∧
    decode_1byte_rli [70, 70] = some 510 ∧
    decode_2byte_rli [66, 56, 48, 48] = some 368 ∧
    decode_2byte_rli [48, 48, 48, 49] = some 512 := by
  refine ⟨?_, ?_, by decide, by decide, by decide⟩
  · intro n hn
    have hn2 : n * 2 / 2 = n := by omega
    have hlow : n &&& 255 = n % 256 := by
      have h := Nat.and_pow_two_sub_one_eq_mod n 8
      norm_num at h
      exact h
    have hdiv : n / 256 < 256 := by omega
    have hhigh : n >>> 8 &&& 255 = n / 256 := by
      have hs : n >>> 8 = n / 256 := by
        have h := Nat.shiftRight_eq_div_pow n 8
        norm_num at h
        exact h
      have h := Nat.and_pow_two_sub_one_eq_mod (n >>> 8) 8
      norm_num at h
      rw [h, hs]
      omega
    have henc : encode_2byte_rli (n * 2) = some (fmt02X (n % 256) ++ fmt02X (n / 256)) := by
      rw [encode_2byte_rli, if_neg (by omega), if_neg (by simp [MAX_2BYTE_RLI_SIZE]; omega)]
      simp only [hn2, hlow, hhigh]
    rw [henc, fmt02X_small (n % 256) (by omega), fmt02X_small (n / 256) hdiv]
    show decode_2byte_rli _ = _
    rw [decode_2byte_rli]
    simp only [List.cons_append, List.nil_append, List.length_cons, List.length_nil,
      List.take_succ_cons, List.take_zero, List.drop_succ_cons, List.drop_zero]
    rw [if_neg (by simp)]
    rw [pyIntHex_hexPair (n % 256 / 16) (by omega) (n % 256 % 16) (by omega),
      pyIntHex_hexPair (n / 256 / 16) (by omega) (n / 256 % 16) (by omega),
      show 16 * (n % 256 / 16) + n % 256 % 16 = n % 256 from by omega,
      show 16 * (n / 256 / 16) + n / 256 % 16 = n / 256 from by omega]
    simp only []
    have hcast : ((n / 256 : Nat) : Int) * 256 = ((n / 256 * 256 : Nat) : Int) := by
      push_cast
      ring
    rw [hcast, int_lor_natCast]
    have hor : n / 256 * 256 ||| n % 256 = n := by
      have h := Nat.mul_add_lt_is_or (b := n % 256) (i := 8) (by omega) (n / 256)
      norm_num at h
      rw [Nat.mul_comm (n / 256) 256, ← h]
      omega
    rw [hor]
    push_cast
    ring_nf
  · intro n hn
    have henc : encode_1byte_rli (n * 2) = some (fmt02X n) := by
      rw [encode_1byte_rli, if_neg (by omega), if_neg (by simp [MAX_1BYTE_RLI_SIZE]; omega),
        show n * 2 / 2 = n from by omega]
    rw [henc]
    show decode_1byte_rli _ = _
    rw [decode_1byte_rli, if_neg (by rw [fmt02X_small n (by omega)]; simp),
      pyIntHex_fmt02X n (by omega)]
    simp only []
    push_cast
    ring_nf

/-- C6 witness: the round-trip theorem applied at the concrete word counts
300 for the 2-byte RLI and 49 for the 1-byte RLI. -/
theorem C6_rli_roundtrip_witness :
    (encode_2byte_rli (300 * 2)).bind decode_2byte_rli = some ((300 * 2 : Nat) : Int) ∧
    (encode_1byte_rli (49 * 2)).bind decode_1byte_rli = some ((49 * 2 : Nat) : Int) :=
  ⟨C6_rli_roundtrip.1 300 (by norm_num), C6_rli_roundtrip.2.1 49 (by norm_num)⟩

/-- A HexStringReader operation never touches the underlying data. -/
theorem reader_step_data (r : HexStringReader) (op : ReaderOp) :
    (r.step op).data = r.data := by
  cases op <;> simp only [HexStringReader.step] <;> split_ifs <;> rfl

/-- One HexStringReader operation never moves the cursor past the length:
this is the one bound _check_bounds does enforce. -/
theorem reader_step_le (r : HexStringReader) (op : ReaderOp)
    (hb : r.pos ≤ (r.length : Int)) : (r.step op).pos ≤ (r.length : Int) := by
  cases op <;>
    simp only [HexStringReader.step, HexStringReader.length] at hb ⊢ <;>
    (try split_ifs) <;>
    (try simp) <;>
    omega

/-- One HexStringReader operation keeps the cursor non-negative when its
count argument is non-negative; seek needs no condition since it rejects
negative targets. The cursor must start within bounds for read_remaining. -/
theorem reader_step_nonneg (r : HexStringReader) (op : ReaderOp) (h0 : 0 ≤ r.pos)
    (hb : r.pos ≤ (r.length : Int)) (h2 : op.nonnegArgs = true) : 0 ≤ (r.step op).pos := by
  cases op <;>
    simp only [HexStringReader.step, HexStringReader.length, ReaderOp.nonnegArgs,
      decide_eq_true_eq] at h2 hb ⊢ <;>
    (try split_ifs) <;>
    (try simp) <;>
    (try omega) <;>
    (have hfd : 0 ≤ ((r.data.length : Int) - r.pos).fdiv 2 :=
      Int.fdiv_nonneg (by omega) (by norm_num)
     omega)

/-- One HexStringReader operation keeps the cursor byte-aligned when its
argument is even: every operation other than skip and seek moves the cursor
by an even character count. -/
theorem reader_step_even (r : HexStringReader) (op : ReaderOp) (h1 : r.pos % 2 = 0)
    (h2 : op.evenArgs = true) : (r.step op).pos % 2 = 0 := by
  cases op <;>
    simp only [HexStringReader.step, ReaderOp.evenArgs, beq_iff_eq] at h2 ⊢ <;>
    (try split_ifs) <;>
    (try simp) <;>
    omega

/-- Any sequence of HexStringReader operations keeps the data unchanged and
the cursor at most the length; the cursor stays non-negative when every
count argument is non-negative, and byte-aligned when every skip count and
seek target is even. -/
theorem reader_runOps_inv (ops : List ReaderOp) :
    ∀ r : HexStringReader, r.pos ≤ (r.length : Int) →
      (r.runOps ops).data = r.data ∧ (r.runOps ops).pos ≤ (r.length : Int) ∧
      (0 ≤ r.pos → ops.all ReaderOp.nonnegArgs = true → 0 ≤ (r.runOps ops).pos) ∧
      (r.pos % 2 = 0 → ops.all ReaderOp.evenArgs = true → (r.runOps ops).pos % 2 = 0) := by
  induction ops with
  | nil =>
    intro r h
    exact ⟨rfl, h, fun h0 _ => h0, fun h1 _ => h1⟩
  | cons op rest ih =>
    intro r h
    have hle := reader_step_le r op h
    have hdata := reader_step_data r op
    have hlen : (r.step op).length = r.length := by
      simp [HexStringReader.length, hdata]
    have hrec := ih (r.step op) (by rw [hlen]; exact hle)
    have hrun : r.runOps (op :: rest) = (r.step op).runOps rest := by
      simp [HexStringReader.runOps]
    rw [hlen] at hrec
    refine ⟨by rw [hrun, hrec.1, hdata], by rw [hrun]; exact hrec.2.1, ?_, ?_⟩
    · intro h0 h2
      rw [hrun]
      simp only [List.all_cons, Bool.and_eq_true] at h2
      exact hrec.2.2.1 (reader_step_nonneg r op h0 h h2.1) h2.2
    · intro h1 h2
      rw [hrun]
      simp only [List.all_cons, Bool.and_eq_true] at h2
      exact hrec.2.2.2 (reader_step_even r op h1 h2.1) h2.2

/-- C8 counterexample: over the valid 4-character hex string 0000, the
public operation skip 1 succeeds and leaves the cursor at position 1, which
is odd, and skip (-2) passes the overflow-only bounds check and leaves the
cursor at position -2, which is negative; both contradict the claimed
invariant that the position is always even with 0 le position le length. -/
theorem C8_reader_position_cex :
    ((HexStringReader.init [48, 48, 48, 48]).map
      (fun r => (r.runOps [ReaderOp.skip 1]).pos)) = some 1 ∧ (1 : Int) % 2 = 1 ∧
    ((HexStringReader.init [48, 48, 48, 48]).map
      (fun r => (r.runOps [ReaderOp.skip (-2)]).pos)) = some (-2) ∧ (-2 : Int) < 0 := by
  decide

/-- C8 amended: for every reader constructed over an even-length hex string,
after any sequence of the public operations the position never exceeds the
length; the position is moreover non-negative provided every count passed to
skip, skip_bytes, read_bytes, slice and create_subreader is non-negative,
and even provided every skip count and every seek target is even. A
negative count passes the overflow-only bounds check and drives the
position below zero, and an odd skip count or seek target breaks byte
alignment. -/
theorem C8_reader_position_invariant :
    ∀ (data : List Nat) (r : HexStringReader), HexStringReader.init data = some r →
    ∀ ops : List ReaderOp,
      (r.runOps ops).pos ≤ ((r.runOps ops).length : Int) ∧
      (ops.all ReaderOp.nonnegArgs = true → 0 ≤ (r.runOps ops).pos) ∧
      (ops.all ReaderOp.evenArgs = true → (r.runOps ops).pos % 2 = 0) := by
  intro data r hinit ops
  rw [HexStringReader.init] at hinit
  split at hinit
  · exact absurd hinit (by simp)
  · rw [Option.some.injEq] at hinit
    have hr0 : r.pos = 0 := by rw [← hinit]
    have hinv := reader_runOps_inv ops r (by rw [hr0]; positivity)
    have hlenrw : (r.runOps ops).length = r.length := by
      simp [HexStringReader.length, hinv.1]
    exact ⟨by rw [hlenrw]; exact hinv.2.1,
      fun h => hinv.2.2.1 (by rw [hr0]) h,
      fun h => hinv.2.2.2 (by rw [hr0]; rfl) h⟩

/-- C8 witness: the amended invariant applied to the reader over 0000 and
the operation sequence read_byte then skip 2, ending non-negative,
byte-aligned and in bounds. -/
theorem C8_reader_position_invariant_witness :
    ((⟨[48, 48, 48, 48], 0⟩ : HexStringReader).runOps
        [ReaderOp.read_byte, ReaderOp.skip 2]).pos ≤
      (((⟨[48, 48, 48, 48], 0⟩ : HexStringReader).runOps
        [ReaderOp.read_byte, ReaderOp.skip 2]).length : Int) ∧
    0 ≤ ((⟨[48, 48, 48, 48], 0⟩ : HexStringReader).runOps
        [ReaderOp.read_byte, ReaderOp.skip 2]).pos ∧
    ((⟨[48, 48, 48, 48], 0⟩ : HexStringReader).runOps
        [ReaderOp.read_byte, ReaderOp.skip 2]).pos % 2 = 0 := by
  have h := C8_reader_position_invariant [48, 48, 48, 48] ⟨[48, 48, 48, 48], 0⟩
    (by decide) [ReaderOp.read_byte, ReaderOp.skip 2]
  exact ⟨h.1, h.2.1 (by decide), h.2.2 (by decide)⟩

/-- C2: every multi-record download operation that starts Connected and ends
at all, normally or with an exception, ends with the client back in the
Connected state, for every per-frame record handler, request write outcome
and transport script; the Downloading state persists only while the
operation is still in flight. -/
theorem C2_download_state_restored :
    ∀ (α : Type) (process : ParsedFrame → Except OpErr (Option α))
      (requestWriteOk : Bool) (steps : List LoopStep) (st : ClientState),
      st = .CONNECTED →
      (runDownloadOp process requestWriteOk steps st).1.ended = true →
      (runDownloadOp process requestWriteOk steps st).2 = .CONNECTED := by
  intro α process requestWriteOk steps st hst
  subst hst
  rw [runDownloadOp, if_neg (by simp)]
  by_cases hreq : requestWriteOk = false
  · rw [if_pos hreq]
    intro _
    rfl
  · rw [if_neg hreq]
    rcases h : runDownloadLoop process steps with records | e
    · intro _
      rfl
    · intro _
      rfl
    · intro hend
      simp [OpOutcome.ended] at hend

/-- C2 witness: the state theorem applied to a concrete run that receives a
single END_OF_RECORD frame and finishes normally. -/
theorem C2_download_state_restored_witness :
    (runDownloadOp (α := Unit) (fun _ => .ok none) true
      [⟨.frame .SUCCESS ⟨0x9B, []⟩, true⟩] .CONNECTED).2 = .CONNECTED :=
  C2_download_state_restored Unit (fun _ => .ok none) true
    [⟨.frame .SUCCESS ⟨0x9B, []⟩, true⟩] .CONNECTED rfl (by rfl)

/-- C4 counterexample: in download_zone_parameters (and every other download
method) the request write happens inside the try block, so a transport write
error aborts the operation but the finally clause moves the client to
Connected, not Disconnected as the claim states for every operation. -/
theorem C4_write_error_cex :
    runDownloadOp (α := Unit) (fun _ => .ok none) false [] .CONNECTED =
      (.failed .transportFail, .CONNECTED) ∧
    (runDownloadOp (α := Unit) (fun _ => .ok none) false [] .CONNECTED).2 ≠
      .DISCONNECTED := by
  constructor
  · rfl
  · intro h
    simp [runDownloadOp] at h

/-- C4 amended: a transport write error always aborts the running operation
with a transport error; during connect the client then ends Disconnected,
but during a multi-record download the finally clause returns the client to
Connected. -/
theorem C4_write_error_states {α : Type} (process : ParsedFrame → Except OpErr (Option α))
    (steps : List LoopStep) (serial : List Nat) (max_retries : Nat)
    (responses : Nat → ConnResp) :
    (isValidSerial serial = true → responses 0 = .writeFail →
      connect serial max_retries .DISCONNECTED responses =
        ⟨[.writeFrame (serialNumberFrame serial)], .transportFail, .DISCONNECTED⟩) ∧
    runDownloadOp process false steps .CONNECTED = (.failed .transportFail, .CONNECTED) := by
  constructor
  · intro hvalid hw
    rw [connect, if_neg (by simp), if_neg (by simp [hvalid])]
    cases max_retries with
    | zero => rw [connectLoop, hw]; simp
    | succ r => rw [connectLoop, hw]; simp
  · rfl

/-- C4 witness: the amended theorem applied at a concrete valid serial with
a first-attempt write failure and at a concrete download with a failing
request write. -/
theorem C4_write_error_states_witness :
    connect [48, 48, 48, 48, 57, 48, 48, 49] 0 .DISCONNECTED (fun _ => .writeFail) =
      ⟨[.writeFrame (serialNumberFrame [48, 48, 48, 48, 57, 48, 48, 49])],
       .transportFail, .DISCONNECTED⟩ ∧
    runDownloadOp (α := Unit) (fun _ => .ok none) false [] .CONNECTED =
      (.failed .transportFail, .CONNECTED) :=
  ⟨(C4_write_error_states (α := Unit) (fun _ => .ok none) []
      [48, 48, 48, 48, 57, 48, 48, 49] 0 (fun _ => .writeFail)).1 (by decide) rfl,
   (C4_write_error_states (α := Unit) (fun _ => .ok none) []
      [48, 48, 48, 48, 57, 48, 48, 49] 0 (fun _ => .writeFail)).2⟩

/-- C1: in the multi-record download loop, a successfully parsed
END_OF_RECORD frame ends the stream normally with nothing further yielded or
written; a successfully parsed ER_NO_ZONE frame also ends the stream
normally; any other error-set command fails the download with a controller
error carrying that code; and every other successfully parsed frame is
yielded to the caller with the OK_SEND_NEXT acknowledgment frame written
before the next read; that acknowledgment frame is STX, 0x99, the checksum
digits 99, ETX. -/
theorem C1_download_dispatch :
    ∀ (parsed : ParsedFrame) (rest : List DLEvent),
      (parsed.command_byte = PCMI_END_OF_RECORD →
        downloadRecordsCore (.frame .SUCCESS parsed :: rest) = ⟨[], [], .endOfRecord⟩) ∧
      (parsed.command_byte = PCMI_ER_NO_ZONE →
        downloadRecordsCore (.frame .SUCCESS parsed :: rest) = ⟨[], [], .noZone⟩) ∧
      (parsed.command_byte ∈ ERROR_CODES → parsed.command_byte ≠ PCMI_ER_NO_ZONE →
        downloadRecordsCore (.frame .SUCCESS parsed :: rest) =
          ⟨[], [], .controllerError parsed.command_byte⟩) ∧
      (parsed.command_byte ≠ PCMI_END_OF_RECORD → parsed.command_byte ∉ ERROR_CODES →
        downloadRecordsCore (.frame .SUCCESS parsed :: rest) =
          ⟨parsed :: (downloadRecordsCore rest).yielded,
           okSendNextFrame :: (downloadRecordsCore rest).writes,
           (downloadRecordsCore rest).outcome⟩) ∧
      okSendNextFrame = [STX, PCMI_OK_SEND_NEXT, 57, 57, ETX] := by
  intro parsed rest
  refine ⟨?_, ?_, ?_, ?_, by decide⟩
  · intro h
    rw [downloadRecordsCore, if_neg (by simp), if_pos h]
  · intro h
    have hmem : parsed.command_byte ∈ ERROR_CODES := by
      rw [h]
      decide
    have hne : parsed.command_byte ≠ PCMI_END_OF_RECORD := by
      rw [h]
      decide
    rw [downloadRecordsCore, if_neg (by simp), if_neg hne, if_pos hmem, if_pos h]
  · intro hmem hne
    have hnotEnd : parsed.command_byte ≠ PCMI_END_OF_RECORD := by
      intro h
      rw [h] at hmem
      exact absurd hmem (by decide)
    rw [downloadRecordsCore, if_neg (by simp), if_neg hnotEnd, if_pos hmem, if_neg hne]
  · intro hne hmem
    rw [downloadRecordsCore, if_neg (by simp), if_neg hne, if_neg hmem]

/-- C1 witness: the dispatch theorem applied to a successfully parsed data
frame with command 0x96 followed by an empty script: the frame is yielded
and the acknowledgment frame written. -/
theorem C1_download_dispatch_witness :
    downloadRecordsCore [.frame .SUCCESS ⟨0x96, []⟩] =
      ⟨[⟨0x96, []⟩], [okSendNextFrame], .starved⟩ := by
  have h := (C1_download_dispatch ⟨0x96, []⟩ []).2.2.2.1 (by decide) (by decide)
  simpa using h

/-- Trace of the connect retry loop when every read attempt times out,
starting from a nonzero attempt index: each attempt discards the buffers and
writes the connection frame, with the 100 ms sleep between attempts. -/
theorem connectLoop_allTimeout (serial : List Nat) (responses : Nat → ConnResp)
    (hto : ∀ i, responses i = .readTimeout) :
    ∀ (remaining attempt : Nat), attempt ≠ 0 →
      connectLoop serial responses attempt remaining =
        ⟨ConnEv.discardBuffers :: ConnEv.writeFrame (serialNumberFrame serial) ::
            (List.replicate remaining
              [ConnEv.sleepRetry, ConnEv.discardBuffers,
               ConnEv.writeFrame (serialNumberFrame serial)]).flatten,
         .timeoutFail, .DISCONNECTED⟩ := by
  intro remaining
  induction remaining with
  | zero =>
    intro attempt ha
    rw [connectLoop, hto attempt]
    simp [ha]
  | succ r ih =>
    intro attempt ha
    rw [connectLoop, hto attempt, ih (attempt + 1) (by omega)]
    simp [ha, List.replicate_succ]

/-- The repeated retry block contributes exactly one frame write per
attempt. -/
theorem writeCount_retry_block (f : List Nat) (n : Nat) :
    writeCount ((List.replicate n
      [ConnEv.sleepRetry, ConnEv.discardBuffers, ConnEv.writeFrame f]).flatten) = n := by
  induction n with
  | zero => rfl
  | succ m ih =>
    rw [List.replicate_succ, List.flatten_cons]
    simp only [writeCount, List.filter_append, List.length_append] at ih ⊢
    simp [ih]
    omega

/-- C3: when connect is called while Disconnected with a valid serial and
every read attempt times out, the recorded transport trace is one connection
frame write followed, for each of the max_retries further attempts, by the
100 ms sleep, the buffer discard and the next write; in total exactly
max_retries + 1 writes of the serial-number request frame, and the call ends
with a timeout error in the Disconnected state. -/
theorem C3_connect_retry_timeouts :
    ∀ (serial : List Nat) (max_retries : Nat) (st : ClientState)
      (responses : Nat → ConnResp),
      st = .DISCONNECTED → isValidSerial serial = true →
      (∀ i, responses i = .readTimeout) →
      connect serial max_retries st responses =
        ⟨ConnEv.writeFrame (serialNumberFrame serial) ::
            (List.replicate max_retries
              [ConnEv.sleepRetry, ConnEv.discardBuffers,
               ConnEv.writeFrame (serialNumberFrame serial)]).flatten,
         .timeoutFail, .DISCONNECTED⟩ ∧
      writeCount (connect serial max_retries st responses).events = max_retries + 1 := by
  intro serial maxR st responses hst hvalid hto
  subst hst
  have htrace : connect serial maxR .DISCONNECTED responses =
      ⟨ConnEv.writeFrame (serialNumberFrame serial) ::
          (List.replicate maxR
            [ConnEv.sleepRetry, ConnEv.discardBuffers,
             ConnEv.writeFrame (serialNumberFrame serial)]).flatten,
       .timeoutFail, .DISCONNECTED⟩ := by
    rw [connect, if_neg (by simp), if_neg (by simp [hvalid])]
    cases maxR with
    | zero =>
      rw [connectLoop, hto 0]
      simp
    | succ r =>
      rw [connectLoop, hto 0, connectLoop_allTimeout serial responses hto r 1 (by omega)]
      simp [List.replicate_succ]
  refine ⟨htrace, ?_⟩
  rw [htrace]
  have hblock := writeCount_retry_block (serialNumberFrame serial) maxR
  simp only [writeCount, List.filter_cons] at hblock ⊢
  simp [hblock]

/-- C3 witness: the retry theorem applied with max_retries = 2 and a
concrete valid serial: exactly 3 writes, a timeout failure and the
Disconnected state. -/
theorem C3_connect_retry_timeouts_witness :
    writeCount (connect [48, 48, 48, 48, 57, 48, 48, 49] 2 .DISCONNECTED
        (fun _ => .readTimeout)).events = 2 + 1 ∧
    (connect [48, 48, 48, 48, 57, 48, 48, 49] 2 .DISCONNECTED
        (fun _ => .readTimeout)).outcome = .timeoutFail ∧
    (connect [48, 48, 48, 48, 57, 48, 48, 49] 2 .DISCONNECTED
        (fun _ => .readTimeout)).state = .DISCONNECTED := by
  have h := C3_connect_retry_timeouts [48, 48, 48, 48, 57, 48, 48, 49] 2 .DISCONNECTED
    (fun _ => .readTimeout) rfl (by decide) (fun i => rfl)
  exact ⟨h.2, by rw [h.1], by rw [h.1]⟩

/-- C10 witness: the selection theorem applied to a concrete 42-byte all
zero record, on which the parameter parser selects record format 0 and the
swap strategy. -/
theorem C10_zone_endian_always_swap_witness :
    zoneParameterSelect (List.replicate 84 48) none = .ok (0, .swap) ∧
    (0 ≤ 15 ∧ EndianTag.swap = .swap) := by
  refine ⟨by rfl, ?_⟩
  have h := C10_zone_endian_always_swap.1 (List.replicate 84 48) 0 .swap (by rfl)
  exact ⟨by omega, h.2⟩

end XT
